import Mathlib

/-!
Verification development for the pms5003-exporter repository.

The binary under `src/main.rs` drives three pieces: a frame codec for the
PMS5003 serial protocol, a freshness-gated metrics store rendered over HTTP,
and an acquisition loop with backoff.  The codec and the metrics store live in
the `pms5003_exporter` library crate, whose source is not part of `src/`;
those parts are modelled from the specification, as marked on each definition.
Everything else (the `/metrics` handler, the read loop's per-frame handling,
the `select!` structure of `main`, the CLI path conversion) is embedded from
`src/main.rs` directly.

Machine integers are modelled as `Nat` with explicit truncation where the wire
format demands it (the 16-bit checksum).
-/

namespace Pms5003

/-- Modelled from the spec: `SensorFrame` (§3), the twelve unsigned 16-bit
fields of one decoded reading, produced only by the frame codec in the
`pms5003` module, which is not under `src/`. -/
structure SensorFrame where
  pm1_0_standard : Nat
  pm2_5_standard : Nat
  pm10_standard : Nat
  pm1_0_atmospheric : Nat
  pm2_5_atmospheric : Nat
  pm10_atmospheric : Nat
  particles_gt_0_3um : Nat
  particles_gt_0_5um : Nat
  particles_gt_1_0um : Nat
  particles_gt_2_5um : Nat
  particles_gt_5_0um : Nat
  particles_gt_10um : Nat
  deriving DecidableEq

/-- Modelled from the spec: the recoverable protocol-level error conditions of
the frame codec (§7). -/
inductive CodecError where
  | checksumMismatch
  | unsupportedFrameLength
  deriving DecidableEq

/-- Result of one decode attempt on the buffered bytes: at most one frame, the
number of leading bytes to drop from the buffer, and at most one signalled
error condition. -/
structure DecodeResult where
  frame : Option SensorFrame
  consumed : Nat
  error : Option CodecError
  deriving DecidableEq

/-- Big-endian 16-bit value from two bytes. -/
def be16 (hi lo : Nat) : Nat := hi * 256 + lo

/-- Modelled from the spec: checksum of §4.1, the unsigned 16-bit sum of the
given bytes truncated to 16 bits. -/
def checksum16 (bytes : List Nat) : Nat := (bytes.foldl (fun a b => a + b) 0) % 65536

/-- Index of the first occurrence of the two adjacent start-marker bytes
`0x42 0x4D` in the buffer, if any. -/
def findPair : List Nat → Option Nat
  | [] => none
  | [_] => none
  | a :: b :: rest =>
    if a = 0x42 ∧ b = 0x4D then some 0
    else (findPair (b :: rest)).map (fun n => n + 1)

/-- Decode the twelve 16-bit big-endian data fields, in the fixed wire order of
§4.1, from the 26-byte data region of a frame (the thirteenth, reserved field
is not part of `SensorFrame`). -/
def mkFrame (data : List Nat) : SensorFrame :=
  ⟨be16 (data.getD 0 0) (data.getD 1 0),
   be16 (data.getD 2 0) (data.getD 3 0),
   be16 (data.getD 4 0) (data.getD 5 0),
   be16 (data.getD 6 0) (data.getD 7 0),
   be16 (data.getD 8 0) (data.getD 9 0),
   be16 (data.getD 10 0) (data.getD 11 0),
   be16 (data.getD 12 0) (data.getD 13 0),
   be16 (data.getD 14 0) (data.getD 15 0),
   be16 (data.getD 16 0) (data.getD 17 0),
   be16 (data.getD 18 0) (data.getD 19 0),
   be16 (data.getD 20 0) (data.getD 21 0),
   be16 (data.getD 22 0) (data.getD 23 0)⟩

/-- Modelled from the spec: checksum verification and field extraction on one
fully buffered 32-byte frame (markers, length, 13 fields, checksum): the
checksum covers bytes 0 through 29, the declared checksum is the big-endian
16-bit value at bytes 30 and 31; on mismatch only the two marker bytes are
dropped (§4.1). -/
def checkFrame (frame : List Nat) : DecodeResult :=
  if checksum16 (frame.take 30) = be16 (frame.getD 30 0) (frame.getD 31 0) then
    ⟨some (mkFrame (frame.drop 4)), 32, none⟩
  else
    ⟨none, 2, some CodecError.checksumMismatch⟩

/-- Modelled from the spec: the decode attempt of §4.1 on a buffer view that
begins at the start markers.  Waits (consumes nothing) while fewer than
`4 + L` bytes are available; a fully buffered frame whose declared length is
not 28 signals `UnsupportedFrameLength` and drops the two marker bytes. -/
def decodeAt (fr : List Nat) : DecodeResult :=
  if fr.length < 4 then ⟨none, 0, none⟩
  else
    let L := be16 (fr.getD 2 0) (fr.getD 3 0)
    if fr.length < 4 + L then ⟨none, 0, none⟩
    else if L = 28 then checkFrame (fr.take 32)
    else ⟨none, 2, some CodecError.unsupportedFrameLength⟩

/-- Modelled from the spec: one decode attempt of the frame codec (§4.1) on
the whole buffered region: scan for the start markers, then decode at the
marker position; reported consumed bytes count from the head of the buffer. -/
def decode (buf : List Nat) : DecodeResult :=
  match findPair buf with
  | none => ⟨none, 0, none⟩
  | some i =>
    let r := decodeAt (buf.drop i)
    ⟨r.frame, if r.consumed = 0 then 0 else i + r.consumed, r.error⟩

/-- Prepend a decoded frame, if any, to an already-emitted list of frames. -/
def emitFrame (o : Option SensorFrame) (l : List SensorFrame) : List SensorFrame :=
  match o with
  | some f => f :: l
  | none => l

/-- Fuel-indexed driver: repeatedly run `decode` on the buffer, dropping the
consumed bytes and collecting the emitted frames, until a decode attempt
consumes nothing (meaning: wait for more input). -/
def driveF : Nat → List Nat → List SensorFrame × List Nat
  | 0, buf => ([], buf)
  | fuel + 1, buf =>
    let r := decode buf
    if r.consumed = 0 then ([], buf)
    else
      let rest := driveF fuel (buf.drop r.consumed)
      (emitFrame r.frame rest.1, rest.2)

/-- Drive `decode` to quiescence on a buffer (every productive decode attempt
consumes at least one byte, so `buf.length` steps of fuel always suffice). -/
def drive (buf : List Nat) : List SensorFrame × List Nat := driveF buf.length buf

/-- Streaming use of the codec (§4.1): starting from leftover buffer `st`,
append the input bytes one at a time, driving the codec to quiescence after
each appended byte; returns all decoded frames and the final leftover. -/
def feedBytes : List Nat → List Nat → List SensorFrame × List Nat
  | st, [] => ([], st)
  | st, b :: bs =>
    let d := drive (st ++ [b])
    let rest := feedBytes d.2 bs
    (d.1 ++ rest.1, rest.2)

/-- The 32-byte end-to-end example input of spec §8, verbatim. -/
def exampleBytes : List Nat :=
  [0x42, 0x4D, 0x00, 0x1C, 0x00, 0x96, 0x00, 0xC8, 0x00, 0xFA, 0x00, 0x96,
   0x00, 0xC8, 0x00, 0xFA, 0x00, 0x0A, 0x00, 0x14, 0x00, 0x1E, 0x00, 0x28,
   0x00, 0x32, 0x00, 0x3C, 0x00, 0x00, 0x0F, 0x3F]

/-- The example input of spec §8 with its checksum bytes replaced by the
actual 16-bit sum of bytes 0 through 29, which is 1581 = 0x062D. -/
def exampleBytesFixed : List Nat :=
  [0x42, 0x4D, 0x00, 0x1C, 0x00, 0x96, 0x00, 0xC8, 0x00, 0xFA, 0x00, 0x96,
   0x00, 0xC8, 0x00, 0xFA, 0x00, 0x0A, 0x00, 0x14, 0x00, 0x1E, 0x00, 0x28,
   0x00, 0x32, 0x00, 0x3C, 0x00, 0x00, 0x06, 0x2D]

/-- A fully buffered frame whose declared length field is 27 instead of 28. -/
def badLengthBytes : List Nat :=
  [0x42, 0x4D, 0x00, 0x1B, 0x00, 0x96, 0x00, 0xC8, 0x00, 0xFA, 0x00, 0x96,
   0x00, 0xC8, 0x00, 0xFA, 0x00, 0x0A, 0x00, 0x14, 0x00, 0x1E, 0x00, 0x28,
   0x00, 0x32, 0x00, 0x3C, 0x00, 0x00, 0x06, 0x2C]

/-- The twelve field values the §8 example is specified to decode to. -/
def exampleFrame : SensorFrame :=
  ⟨150, 200, 250, 150, 200, 250, 10, 20, 30, 40, 50, 60⟩

/-- Modelled from the spec: the fixed freshness TTL constant `METRICS_TTL` of
the `metrics` module, which is not under `src/` (§6: a fixed constant, value
not specified by the spec; 60000 milliseconds is used as a representative
fixed value — no claim depends on the value). -/
def METRICS_TTL : Nat := 60000

/-- Modelled from the spec: the metrics snapshot of §3,
`{ frame : Option SensorFrame, observed_at }`; `last_update` keeps the field
name visible in `src/main.rs` (`metrics.last_update`). -/
structure Metrics where
  frame : Option SensorFrame
  last_update : Nat
  deriving DecidableEq

/-- Modelled from the spec: `Metrics::new()` (§3: created empty at process
start, `frame = None`); the construction instant is passed explicitly. -/
def Metrics.new (now : Nat) : Metrics := ⟨none, now⟩

/-- Modelled from the spec: `Metrics::update` (§4.2: atomically replaces the
held snapshot with `{frame: Some(frame), observed_at: now}`). -/
def Metrics.update (_m : Metrics) (f : SensorFrame) (now : Nat) : Metrics := ⟨some f, now⟩

/-- Modelled from the spec: the exposition text of §6, one `metric_name value`
line per metric, names derived from the `SensorFrame` field names. -/
def renderFrame (f : SensorFrame) : String :=
  "pm1_0_standard " ++ toString f.pm1_0_standard ++ "\n" ++
  "pm2_5_standard " ++ toString f.pm2_5_standard ++ "\n" ++
  "pm10_standard " ++ toString f.pm10_standard ++ "\n" ++
  "pm1_0_atmospheric " ++ toString f.pm1_0_atmospheric ++ "\n" ++
  "pm2_5_atmospheric " ++ toString f.pm2_5_atmospheric ++ "\n" ++
  "pm10_atmospheric " ++ toString f.pm10_atmospheric ++ "\n" ++
  "particles_gt_0_3um " ++ toString f.particles_gt_0_3um ++ "\n" ++
  "particles_gt_0_5um " ++ toString f.particles_gt_0_5um ++ "\n" ++
  "particles_gt_1_0um " ++ toString f.particles_gt_1_0um ++ "\n" ++
  "particles_gt_2_5um " ++ toString f.particles_gt_2_5um ++ "\n" ++
  "particles_gt_5_0um " ++ toString f.particles_gt_5_0um ++ "\n" ++
  "particles_gt_10um " ++ toString f.particles_gt_10um ++ "\n"

/-- Modelled from the spec: `Metrics::encode` of the `metrics` module (not
under `src/`): renders the held snapshot, empty when no frame has ever been
stored (§4.2); rendering itself cannot fail in this model, so the encoding
error path of the handler is never taken. -/
def Metrics.encode (m : Metrics) : String :=
  match m.frame with
  | none => ""
  | some f => renderFrame f

/-- The `/metrics` handler from `src/main.rs` lines 125-136: if the elapsed
time since the last update exceeds `METRICS_TTL`, answer `200 OK` with an
empty body; otherwise answer the encoded metrics.  The error side of the
`Except` is the HTTP status code used with `map_err`
(`500 Internal Server Error`), never produced by the modelled `encode`. -/
def handler (now : Nat) (m : Metrics) : Except Nat String :=
  if METRICS_TTL < now - m.last_update then Except.ok ""
  else Except.ok (m.encode)

/-- One iteration of the frame-reading `while let` loop of `src/main.rs`
lines 86-95: a decoded frame updates the metrics store at the instant it
arrives; a codec error is only logged and leaves the store unchanged. -/
def readStep (m : Metrics) : Nat × Except CodecError SensorFrame → Metrics
  | (t, Except.ok f) => m.update f t
  | (_, Except.error _) => m

/-- The frame-reading loop of `src/main.rs` lines 86-95 over a finite stream
of timestamped codec results: it processes every item of the stream in order,
never exiting early on a codec error. -/
def readLoop (m : Metrics) (items : List (Nat × Except CodecError SensorFrame)) : Metrics :=
  items.foldl readStep m

/-- An operation of a linearized history on the metrics store.  `update` and
`render` act on the snapshot under the `tokio::sync::RwLock` of
`src/main.rs` (write-exclusive), so every admissible interleaving of the
concurrent calls is one serialization, i.e. one such list of operations. -/
inductive Op where
  | update (f : SensorFrame) (t : Nat)
  | render (t : Nat)
  deriving DecidableEq

/-- Run a linearized history of store operations, collecting the response of
every render (`GET /metrics`) call. -/
def runOps : Metrics → List Op → List (Except Nat String)
  | _, [] => []
  | m, Op.update f t :: rest => runOps (m.update f t) rest
  | m, Op.render t :: rest => handler t m :: runOps m rest

/-- An event that can end the waiting of `main`'s `select!`, or the end of the
spawned server task. -/
inductive Wakeup where
  | readReturned
  | sigterm
  | ctrlC
  | serveTaskEnded
  deriving DecidableEq

/-- The three arms of the `select!` in `src/main.rs` lines 50-58: completion
of `read`, SIGTERM, and Ctrl-C.  The spawned server task's handle is awaited
only after the `select!` completes (line 61). -/
def mainSelectArms : List Wakeup := [Wakeup.readReturned, Wakeup.sigterm, Wakeup.ctrlC]

/-- Whether an event makes `main` leave its `select!` and shut down. -/
def mainStopsOn (w : Wakeup) : Bool := decide (w ∈ mainSelectArms)

/-- Outcome of acquiring the listening socket in `serve`. -/
inductive BindOutcome where
  | bound
  | bindFailed
  deriving DecidableEq

/-- Status of the spawned server task. -/
inductive TaskStatus where
  | running
  | ended
  deriving DecidableEq

/-- From `src/main.rs` lines 105-123: `axum::Server::bind` panics when the
socket cannot be acquired (and `.unwrap()` panics on a serve error), ending
the spawned task; on success the task keeps serving. -/
def serveTaskStatus : BindOutcome → TaskStatus
  | BindOutcome.bindFailed => TaskStatus.ended
  | BindOutcome.bound => TaskStatus.running

/-- Whether the acquisition side keeps running after an event. -/
inductive Acquisition where
  | acquiring
  | stopped
  deriving DecidableEq

/-- What happens to the acquisition loop when an event fires: it stops only if
the event is one of `main`'s `select!` arms. -/
def acquisitionAfter (w : Wakeup) : Acquisition :=
  if mainStopsOn w then Acquisition.stopped else Acquisition.acquiring

/-- Whether a byte is a UTF-8 continuation byte (`10xxxxxx`). -/
def utf8Cont (b : Nat) : Bool := decide (0x80 ≤ b ∧ b < 0xC0)

/-- UTF-8 decoder on raw bytes, returning the scalar values on success: the
validity notion of Rust's `str` (RFC 3629: no overlong forms, no surrogates,
nothing above U+10FFFF), which `Path::to_str` applies to the OS path bytes. -/
def utf8Decode : List Nat → Option (List Nat)
  | [] => some []
  | b :: rest =>
    if b < 0x80 then (utf8Decode rest).map (fun cs => b :: cs)
    else if b < 0xC2 then none
    else if b < 0xE0 then
      match rest with
      | c1 :: rest2 =>
        if utf8Cont c1 then
          (utf8Decode rest2).map (fun cs => ((b - 0xC0) * 64 + (c1 - 0x80)) :: cs)
        else none
      | [] => none
    else if b < 0xF0 then
      match rest with
      | c1 :: c2 :: rest2 =>
        let lo := if b = 0xE0 then 0xA0 else 0x80
        let hi := if b = 0xED then 0xA0 else 0xC0
        if lo ≤ c1 ∧ c1 < hi ∧ utf8Cont c2 then
          (utf8Decode rest2).map
            (fun cs => ((b - 0xE0) * 4096 + (c1 - 0x80) * 64 + (c2 - 0x80)) :: cs)
        else none
      | _ => none
    else if b < 0xF5 then
      match rest with
      | c1 :: c2 :: c3 :: rest2 =>
        let lo := if b = 0xF0 then 0x90 else 0x80
        let hi := if b = 0xF4 then 0x90 else 0xC0
        if lo ≤ c1 ∧ c1 < hi ∧ utf8Cont c2 ∧ utf8Cont c3 then
          (utf8Decode rest2).map
            (fun cs =>
              ((b - 0xF0) * 262144 + (c1 - 0x80) * 4096 + (c2 - 0x80) * 64 + (c3 - 0x80)) :: cs)
        else none
      | _ => none
    else none

/-- `Path::to_str` on the path's bytes: `some` exactly when they are valid
UTF-8 (used on `cli.serial_device_path` in `src/main.rs` line 51). -/
def to_str (p : List Nat) : Option (List Nat) :=
  match utf8Decode p with
  | some _ => some p
  | none => none

/-- Whether startup got past the device-path argument conversion. -/
inductive StartupResult where
  | panicked
  | proceeded (device : List Nat)
  deriving DecidableEq

/-- `src/main.rs` line 51: `cli.serial_device_path.to_str().unwrap()`,
evaluated when `main` builds its `select!`, before the serial device is ever
opened; `unwrap` on `None` is a panic. -/
def startupDeviceArg (p : List Nat) : StartupResult :=
  match to_str p with
  | none => StartupResult.panicked
  | some s => StartupResult.proceeded s

/-- The bytes of the ASCII device path `/dev/ttyUSB0`. -/
def devicePathBytes : List Nat := [47, 100, 101, 118, 47, 116, 116, 121, 85, 83, 66, 48]

theorem getD_drop' (l : List Nat) (n m d : Nat) : (l.drop n).getD m d = l.getD (n + m) d := by
  rw [List.getD_eq_getElem?_getD, List.getD_eq_getElem?_getD, List.getElem?_drop]

theorem getD_take' (l : List Nat) (n m d : Nat) (h : m < n) :
    (l.take n).getD m d = l.getD m d := by
  rw [List.getD_eq_getElem?_getD, List.getD_eq_getElem?_getD, List.getElem?_take_of_lt h]

theorem getD_take32_drop4 (buf : List Nat) (k : Nat) (h : k < 28) :
    ((buf.take 32).drop 4).getD k 0 = buf.getD (4 + k) 0 := by
  rw [getD_drop', getD_take' _ _ _ _ (by omega)]

theorem findPair_cons₂ (a b : Nat) (rest : List Nat) :
    findPair (a :: b :: rest) =
      if a = 0x42 ∧ b = 0x4D then some 0
      else (findPair (b :: rest)).map (fun n => n + 1) := rfl

theorem findPair_bound (buf : List Nat) (i : Nat) (h : findPair buf = some i) :
    i + 2 ≤ buf.length := by
  induction buf generalizing i with
  | nil => simp [findPair] at h
  | cons a tl ih =>
    cases tl with
    | nil => simp [findPair] at h
    | cons b rest =>
      rw [findPair_cons₂] at h
      by_cases hm : a = 0x42 ∧ b = 0x4D
      · rw [if_pos hm] at h
        cases h
        simp
      · rw [if_neg hm] at h
        cases hj : findPair (b :: rest) with
        | none => rw [hj] at h; simp at h
        | some j =>
          rw [hj] at h
          simp at h
          have hb := ih j hj
          simp at hb ⊢
          omega

theorem findPair_append (buf ext : List Nat) (i : Nat) (h : findPair buf = some i) :
    findPair (buf ++ ext) = some i := by
  induction buf generalizing i with
  | nil => simp [findPair] at h
  | cons a tl ih =>
    cases tl with
    | nil => simp [findPair] at h
    | cons b rest =>
      rw [List.cons_append, List.cons_append, findPair_cons₂]
      rw [findPair_cons₂] at h
      by_cases hm : a = 0x42 ∧ b = 0x4D
      · rw [if_pos hm] at h ⊢
        exact h
      · rw [if_neg hm] at h ⊢
        cases hj : findPair (b :: rest) with
        | none => rw [hj] at h; simp at h
        | some j =>
          rw [hj] at h
          have h2 := ih j hj
          rw [List.cons_append] at h2
          rw [h2]
          exact h

theorem findPair_head (buf : List Nat) (h0 : buf.getD 0 0 = 0x42) (h1 : buf.getD 1 0 = 0x4D)
    (h2 : 2 ≤ buf.length) : findPair buf = some 0 := by
  cases buf with
  | nil => simp at h2
  | cons a tl =>
    cases tl with
    | nil => simp at h2
    | cons b rest =>
      rw [List.getD_cons_zero] at h0
      rw [List.getD_cons_succ, List.getD_cons_zero] at h1
      rw [findPair_cons₂, if_pos ⟨h0, h1⟩]

theorem decodeAt_eq (fr : List Nat) :
    decodeAt fr =
      if fr.length < 4 then ⟨none, 0, none⟩
      else if fr.length < 4 + be16 (fr.getD 2 0) (fr.getD 3 0) then ⟨none, 0, none⟩
      else if be16 (fr.getD 2 0) (fr.getD 3 0) = 28 then checkFrame (fr.take 32)
      else ⟨none, 2, some CodecError.unsupportedFrameLength⟩ := rfl

theorem checkFrame_consumed (frame : List Nat) :
    (checkFrame frame).consumed = 2 ∨ (checkFrame frame).consumed = 32 := by
  unfold checkFrame
  split <;> simp

theorem decodeAt_consumed_le (fr : List Nat) : (decodeAt fr).consumed ≤ fr.length := by
  rw [decodeAt_eq]
  split
  · simp
  · split
    · simp
    · split
      · rcases checkFrame_consumed (fr.take 32) with h | h <;> rw [h] <;> omega
      · simp
        omega

theorem decode_eq_none (buf : List Nat) (h : findPair buf = none) :
    decode buf = ⟨none, 0, none⟩ := by
  unfold decode
  rw [h]

theorem decode_eq_some (buf : List Nat) (i : Nat) (h : findPair buf = some i) :
    decode buf = ⟨(decodeAt (buf.drop i)).frame,
      if (decodeAt (buf.drop i)).consumed = 0 then 0 else i + (decodeAt (buf.drop i)).consumed,
      (decodeAt (buf.drop i)).error⟩ := by
  unfold decode
  rw [h]

theorem decode_consumed_le (buf : List Nat) : (decode buf).consumed ≤ buf.length := by
  cases hf : findPair buf with
  | none =>
    rw [decode_eq_none buf hf]
    simp
  | some i =>
    rw [decode_eq_some buf i hf]
    have hb := findPair_bound buf i hf
    have hc := decodeAt_consumed_le (buf.drop i)
    rw [List.length_drop] at hc
    simp only
    split
    · simp
    · omega

theorem decode_nil : decode [] = ⟨none, 0, none⟩ := rfl

theorem decodeAt_extend (fr ext : List Nat) (h : (decodeAt fr).consumed ≠ 0) :
    decodeAt (fr ++ ext) = decodeAt fr := by
  rw [decodeAt_eq] at h
  by_cases h4 : fr.length < 4
  · rw [if_pos h4] at h; simp at h
  · rw [if_neg h4] at h
    have e2 : (fr ++ ext).getD 2 0 = fr.getD 2 0 := List.getD_append _ _ _ _ (by omega)
    have e3 : (fr ++ ext).getD 3 0 = fr.getD 3 0 := List.getD_append _ _ _ _ (by omega)
    by_cases hlen : fr.length < 4 + be16 (fr.getD 2 0) (fr.getD 3 0)
    · rw [if_pos hlen] at h; simp at h
    · rw [if_neg hlen] at h
      have h4' : ¬ (fr ++ ext).length < 4 := by rw [List.length_append]; omega
      have hlen' : ¬ (fr ++ ext).length <
          4 + be16 ((fr ++ ext).getD 2 0) ((fr ++ ext).getD 3 0) := by
        rw [e2, e3, List.length_append]; omega
      rw [decodeAt_eq, decodeAt_eq, if_neg h4, if_neg h4', if_neg hlen, if_neg hlen', e2, e3]
      by_cases h28 : be16 (fr.getD 2 0) (fr.getD 3 0) = 28
      · rw [if_pos h28, if_pos h28, List.take_append_of_le_length (by omega)]
      · rw [if_neg h28, if_neg h28]

theorem decode_extend (buf ext : List Nat) (h : (decode buf).consumed ≠ 0) :
    decode (buf ++ ext) = decode buf := by
  cases hf : findPair buf with
  | none => rw [decode_eq_none buf hf] at h; simp at h
  | some i =>
    have hb := findPair_bound buf i hf
    rw [decode_eq_some buf i hf] at h
    have hr : (decodeAt (buf.drop i)).consumed ≠ 0 := by
      intro h0
      rw [h0] at h
      simp at h
    rw [decode_eq_some buf i hf,
        decode_eq_some (buf ++ ext) i (findPair_append buf ext i hf),
        List.drop_append_of_le_length (by omega),
        decodeAt_extend _ _ hr]

theorem driveF_congr (fuel : Nat) : ∀ (fuel' : Nat) (buf : List Nat),
    buf.length ≤ fuel → buf.length ≤ fuel' → driveF fuel buf = driveF fuel' buf := by
  induction fuel with
  | zero =>
    intro fuel' buf h h'
    have hb : buf = [] := List.length_eq_zero.mp (Nat.le_zero.mp h)
    subst hb
    cases fuel' with
    | zero => rfl
    | succ k => simp [driveF, decode_nil]
  | succ n ih =>
    intro fuel' buf h h'
    cases fuel' with
    | zero =>
      have hb : buf = [] := List.length_eq_zero.mp (Nat.le_zero.mp h')
      subst hb
      simp [driveF, decode_nil]
    | succ k =>
      by_cases hc : (decode buf).consumed = 0
      · simp [driveF, hc]
      · simp only [driveF, if_neg hc]
        have hle := decode_consumed_le buf
        have h1 : (buf.drop (decode buf).consumed).length ≤ n := by
          rw [List.length_drop]; omega
        have h2 : (buf.drop (decode buf).consumed).length ≤ k := by
          rw [List.length_drop]; omega
        rw [ih k (buf.drop (decode buf).consumed) h1 h2]

theorem drive_stuck (buf : List Nat) (h : (decode buf).consumed = 0) : drive buf = ([], buf) := by
  unfold drive
  cases hl : buf.length with
  | zero => rfl
  | succ n => simp [driveF, h]

theorem drive_step (buf : List Nat) (h : (decode buf).consumed ≠ 0) :
    drive buf = (emitFrame (decode buf).frame (drive (buf.drop (decode buf).consumed)).1,
                 (drive (buf.drop (decode buf).consumed)).2) := by
  have hle := decode_consumed_le buf
  obtain ⟨m, hm⟩ : ∃ m, buf.length = m + 1 := ⟨buf.length - 1, by omega⟩
  unfold drive
  rw [hm]
  simp only [driveF, if_neg h]
  rw [driveF_congr m (buf.drop (decode buf).consumed).length (buf.drop (decode buf).consumed)
      (by rw [List.length_drop]; omega) (le_refl _)]

theorem drive_snd_stuck (buf : List Nat) : (decode (drive buf).2).consumed = 0 := by
  by_cases h : (decode buf).consumed = 0
  · rw [drive_stuck buf h]
    exact h
  · rw [drive_step buf h]
    exact drive_snd_stuck (buf.drop (decode buf).consumed)
termination_by buf.length
decreasing_by
  have := decode_consumed_le buf
  rw [List.length_drop]
  omega

theorem emitFrame_append (o : Option SensorFrame) (l1 l2 : List SensorFrame) :
    emitFrame o (l1 ++ l2) = emitFrame o l1 ++ l2 := by
  cases o <;> simp [emitFrame]

theorem drive_append (buf ext : List Nat) :
    (drive (buf ++ ext)).1 = (drive buf).1 ++ (drive ((drive buf).2 ++ ext)).1 ∧
    (drive (buf ++ ext)).2 = (drive ((drive buf).2 ++ ext)).2 := by
  by_cases h : (decode buf).consumed = 0
  · rw [drive_stuck buf h]
    simp
  · have hle := decode_consumed_le buf
    have hdec := decode_extend buf ext h
    have h' : (decode (buf ++ ext)).consumed ≠ 0 := by rw [hdec]; exact h
    rw [drive_step buf h, drive_step (buf ++ ext) h', hdec,
        List.drop_append_of_le_length (by omega)]
    obtain ⟨ih1, ih2⟩ := drive_append (buf.drop (decode buf).consumed) ext
    dsimp only
    constructor
    · rw [ih1, emitFrame_append]
    · rw [ih2]
termination_by buf.length
decreasing_by
  have := decode_consumed_le buf
  rw [List.length_drop]
  omega

theorem feedBytes_drive (bs : List Nat) : ∀ st : List Nat, (decode st).consumed = 0 →
    feedBytes st bs = drive (st ++ bs) := by
  induction bs with
  | nil =>
    intro st h
    rw [List.append_nil, drive_stuck st h]
    rfl
  | cons b bs ih =>
    intro st h
    have hq := drive_snd_stuck (st ++ [b])
    have hsplit : st ++ b :: bs = (st ++ [b]) ++ bs := by simp
    rw [hsplit]
    show ((drive (st ++ [b])).1 ++ (feedBytes (drive (st ++ [b])).2 bs).1,
          (feedBytes (drive (st ++ [b])).2 bs).2) = drive ((st ++ [b]) ++ bs)
    rw [ih (drive (st ++ [b])).2 hq]
    obtain ⟨h1, h2⟩ := drive_append (st ++ [b]) bs
    exact Prod.ext h1.symm h2.symm

/-- Claim C1, counterexample: the concrete 32-byte example input of spec §8
does not decode to a frame at all — its declared checksum bytes `0F 3F`
(3903) differ from the 16-bit sum of bytes 0 through 29 (1581 = 0x062D), so
the codec signals a checksum mismatch; moreover, even with the checksum bytes
corrected, a well-formed frame consumes 32 bytes, not the claimed 30. -/
theorem c1_counterexample :
    decode exampleBytes = ⟨none, 2, some CodecError.checksumMismatch⟩ ∧
    checksum16 (exampleBytes.take 30) ≠
      be16 (exampleBytes.getD 30 0) (exampleBytes.getD 31 0) ∧
    checksum16 (exampleBytes.take 30) = 1581 ∧
    be16 (exampleBytes.getD 30 0) (exampleBytes.getD 31 0) = 3903 ∧
    (decode exampleBytesFixed).consumed = 32 := by
  decide

/-- Claim C1 (amended): for every byte buffer that begins with a well-formed
frame (start markers `0x42 0x4D`, declared length 28, checksum at bytes 30-31
equal to the 16-bit sum of bytes 0-29), decode produces exactly one
`SensorFrame` whose twelve unsigned 16-bit big-endian fields are taken from
bytes 4.. in the fixed wire order, and reports 32 (= 4 + L) bytes consumed;
the §8 example with its checksum bytes corrected to `06 2D` decodes to
pm1_0_standard=150, pm2_5_standard=200, pm10_standard=250,
pm1_0_atmospheric=150, pm2_5_atmospheric=200, pm10_atmospheric=250 and
particle bins 10, 20, 30, 40, 50, 60, and its checksum equals the sum of
bytes 0-29. -/
theorem c1_wellformed_decode :
    (∀ buf : List Nat,
      buf.getD 0 0 = 0x42 → buf.getD 1 0 = 0x4D →
      be16 (buf.getD 2 0) (buf.getD 3 0) = 28 →
      32 ≤ buf.length →
      checksum16 (buf.take 30) = be16 (buf.getD 30 0) (buf.getD 31 0) →
      decode buf = ⟨some (mkFrame ((buf.take 32).drop 4)), 32, none⟩ ∧
      (mkFrame ((buf.take 32).drop 4)).pm1_0_standard = be16 (buf.getD 4 0) (buf.getD 5 0) ∧
      (mkFrame ((buf.take 32).drop 4)).pm2_5_standard = be16 (buf.getD 6 0) (buf.getD 7 0) ∧
      (mkFrame ((buf.take 32).drop 4)).pm10_standard = be16 (buf.getD 8 0) (buf.getD 9 0) ∧
      (mkFrame ((buf.take 32).drop 4)).pm1_0_atmospheric = be16 (buf.getD 10 0) (buf.getD 11 0) ∧
      (mkFrame ((buf.take 32).drop 4)).pm2_5_atmospheric = be16 (buf.getD 12 0) (buf.getD 13 0) ∧
      (mkFrame ((buf.take 32).drop 4)).pm10_atmospheric = be16 (buf.getD 14 0) (buf.getD 15 0) ∧
      (mkFrame ((buf.take 32).drop 4)).particles_gt_0_3um = be16 (buf.getD 16 0) (buf.getD 17 0) ∧
      (mkFrame ((buf.take 32).drop 4)).particles_gt_0_5um = be16 (buf.getD 18 0) (buf.getD 19 0) ∧
      (mkFrame ((buf.take 32).drop 4)).particles_gt_1_0um = be16 (buf.getD 20 0) (buf.getD 21 0) ∧
      (mkFrame ((buf.take 32).drop 4)).particles_gt_2_5um = be16 (buf.getD 22 0) (buf.getD 23 0) ∧
      (mkFrame ((buf.take 32).drop 4)).particles_gt_5_0um = be16 (buf.getD 24 0) (buf.getD 25 0) ∧
      (mkFrame ((buf.take 32).drop 4)).particles_gt_10um = be16 (buf.getD 26 0) (buf.getD 27 0)) ∧
    decode exampleBytesFixed = ⟨some exampleFrame, 32, none⟩ ∧
    checksum16 (exampleBytesFixed.take 30) =
      be16 (exampleBytesFixed.getD 30 0) (exampleBytesFixed.getD 31 0) := by
  refine ⟨?_, by decide, by decide⟩
  intro buf h0 h1 hL h32 hck
  have hfp : findPair buf = some 0 := findPair_head buf h0 h1 (by omega)
  have t30 : (buf.take 32).take 30 = buf.take 30 := by
    rw [List.take_take]
    norm_num
  have hda : decodeAt buf = ⟨some (mkFrame ((buf.take 32).drop 4)), 32, none⟩ := by
    rw [decodeAt_eq, if_neg (by omega), hL, if_neg (by omega), if_pos rfl]
    unfold checkFrame
    rw [t30, getD_take' buf 32 30 0 (by omega), getD_take' buf 32 31 0 (by omega), if_pos hck]
  have hdec : decode buf = ⟨some (mkFrame ((buf.take 32).drop 4)), 32, none⟩ := by
    rw [decode_eq_some buf 0 hfp, List.drop_zero, hda]
    rfl
  refine ⟨hdec, ?_, ?_, ?_, ?_, ?_, ?_, ?_, ?_, ?_, ?_, ?_, ?_⟩
  · dsimp only [mkFrame]
    rw [getD_take32_drop4 buf 0 (by omega), getD_take32_drop4 buf 1 (by omega)]
  · dsimp only [mkFrame]
    rw [getD_take32_drop4 buf 2 (by omega), getD_take32_drop4 buf 3 (by omega)]
  · dsimp only [mkFrame]
    rw [getD_take32_drop4 buf 4 (by omega), getD_take32_drop4 buf 5 (by omega)]
  · dsimp only [mkFrame]
    rw [getD_take32_drop4 buf 6 (by omega), getD_take32_drop4 buf 7 (by omega)]
  · dsimp only [mkFrame]
    rw [getD_take32_drop4 buf 8 (by omega), getD_take32_drop4 buf 9 (by omega)]
  · dsimp only [mkFrame]
    rw [getD_take32_drop4 buf 10 (by omega), getD_take32_drop4 buf 11 (by omega)]
  · dsimp only [mkFrame]
    rw [getD_take32_drop4 buf 12 (by omega), getD_take32_drop4 buf 13 (by omega)]
  · dsimp only [mkFrame]
    rw [getD_take32_drop4 buf 14 (by omega), getD_take32_drop4 buf 15 (by omega)]
  · dsimp only [mkFrame]
    rw [getD_take32_drop4 buf 16 (by omega), getD_take32_drop4 buf 17 (by omega)]
  · dsimp only [mkFrame]
    rw [getD_take32_drop4 buf 18 (by omega), getD_take32_drop4 buf 19 (by omega)]
  · dsimp only [mkFrame]
    rw [getD_take32_drop4 buf 20 (by omega), getD_take32_drop4 buf 21 (by omega)]
  · dsimp only [mkFrame]
    rw [getD_take32_drop4 buf 22 (by omega), getD_take32_drop4 buf 23 (by omega)]

/-- Claim C1, witness: the amended theorem applied to the corrected example
input. -/
theorem c1_witness :
    decode exampleBytesFixed = ⟨some (mkFrame ((exampleBytesFixed.take 32).drop 4)), 32, none⟩ ∧
    (mkFrame ((exampleBytesFixed.take 32).drop 4)).pm1_0_standard =
      be16 (exampleBytesFixed.getD 4 0) (exampleBytesFixed.getD 5 0) :=
  ⟨(c1_wellformed_decode.1 exampleBytesFixed (by decide) (by decide) (by decide) (by decide)
      (by decide)).1,
   (c1_wellformed_decode.1 exampleBytesFixed (by decide) (by decide) (by decide) (by decide)
      (by decide)).2.1⟩

/-- Claim C2: on a fully buffered frame that starts with the two markers but
whose checksum does not match, decode produces no frame, signals
`ChecksumMismatch`, and consumes exactly the two marker bytes (strictly less
than the buffered region); a fully buffered frame whose declared length
differs from 28 is signalled as `UnsupportedFrameLength` and handled
identically. -/
theorem c2_resync_on_error :
    (∀ buf : List Nat,
      buf.getD 0 0 = 0x42 → buf.getD 1 0 = 0x4D →
      be16 (buf.getD 2 0) (buf.getD 3 0) = 28 →
      32 ≤ buf.length →
      checksum16 (buf.take 30) ≠ be16 (buf.getD 30 0) (buf.getD 31 0) →
      decode buf = ⟨none, 2, some CodecError.checksumMismatch⟩ ∧ 2 < buf.length) ∧
    (∀ buf : List Nat,
      buf.getD 0 0 = 0x42 → buf.getD 1 0 = 0x4D →
      be16 (buf.getD 2 0) (buf.getD 3 0) ≠ 28 →
      4 + be16 (buf.getD 2 0) (buf.getD 3 0) ≤ buf.length →
      decode buf = ⟨none, 2, some CodecError.unsupportedFrameLength⟩ ∧ 2 < buf.length) := by
  constructor
  · intro buf h0 h1 hL h32 hck
    refine ⟨?_, by omega⟩
    have hfp : findPair buf = some 0 := findPair_head buf h0 h1 (by omega)
    have t30 : (buf.take 32).take 30 = buf.take 30 := by
      rw [List.take_take]
      norm_num
    have hda : decodeAt buf = ⟨none, 2, some CodecError.checksumMismatch⟩ := by
      rw [decodeAt_eq, if_neg (by omega), hL, if_neg (by omega), if_pos rfl]
      unfold checkFrame
      rw [t30, getD_take' buf 32 30 0 (by omega), getD_take' buf 32 31 0 (by omega), if_neg hck]
    rw [decode_eq_some buf 0 hfp, List.drop_zero, hda]
    rfl
  · intro buf h0 h1 hL hlen
    refine ⟨?_, by omega⟩
    have hfp : findPair buf = some 0 := findPair_head buf h0 h1 (by omega)
    rw [decode_eq_some buf 0 hfp, List.drop_zero, decodeAt_eq,
        if_neg (by omega), if_neg (by omega), if_neg hL]
    rfl

/-- Claim C2, witness: the §8 example itself is a checksum-mismatch input, and
`badLengthBytes` is a fully buffered frame with declared length 27. -/
theorem c2_witness :
    decode exampleBytes = ⟨none, 2, some CodecError.checksumMismatch⟩ ∧
    decode badLengthBytes = ⟨none, 2, some CodecError.unsupportedFrameLength⟩ :=
  ⟨(c2_resync_on_error.1 exampleBytes (by decide) (by decide) (by decide) (by decide)
      (by decide)).1,
   (c2_resync_on_error.2 badLengthBytes (by decide) (by decide) (by decide) (by decide)).1⟩

/-- Claim C3: feeding any byte sequence one byte at a time (driving decode to
quiescence after each byte) yields exactly the same decoded frames and the
same leftover buffer as driving the whole sequence at once; when the two
start markers are not both present the codec consumes nothing, produces no
frame and signals no error, and likewise while fewer than `4 + L` bytes past
the markers are buffered. -/
theorem c3_streaming_equivalence :
    (∀ bs : List Nat, feedBytes [] bs = drive bs) ∧
    (∀ buf : List Nat, findPair buf = none → decode buf = ⟨none, 0, none⟩) ∧
    (∀ (buf : List Nat) (i : Nat), findPair buf = some i →
      buf.length < i + 4 + be16 (buf.getD (i + 2) 0) (buf.getD (i + 3) 0) →
      decode buf = ⟨none, 0, none⟩) := by
  refine ⟨?_, ?_, ?_⟩
  · intro bs
    have h := feedBytes_drive bs [] (by rw [decode_nil])
    rw [h, List.nil_append]
  · intro buf h
    exact decode_eq_none buf h
  · intro buf i hfp hlen
    rw [decode_eq_some buf i hfp]
    have e2 : (buf.drop i).getD 2 0 = buf.getD (i + 2) 0 := getD_drop' buf i 2 0
    have e3 : (buf.drop i).getD 3 0 = buf.getD (i + 3) 0 := getD_drop' buf i 3 0
    by_cases h4 : (buf.drop i).length < 4
    · rw [decodeAt_eq, if_pos h4]
      rfl
    · rw [decodeAt_eq, if_neg h4, e2, e3,
          if_pos (by rw [List.length_drop] at h4 ⊢; omega)]
      rfl

/-- Claim C3, witness: the two statements with hypotheses applied to concrete
buffers (a marker-free buffer, and a buffer holding only markers and one
length byte); the streaming equivalence evaluated on a concrete stream. -/
theorem c3_witness :
    feedBytes [] (exampleBytesFixed ++ exampleBytes ++ exampleBytesFixed) =
      drive (exampleBytesFixed ++ exampleBytes ++ exampleBytesFixed) ∧
    decode [1, 2, 3] = ⟨none, 0, none⟩ ∧
    decode [0x42, 0x4D, 0x00] = ⟨none, 0, none⟩ :=
  ⟨c3_streaming_equivalence.1 _,
   c3_streaming_equivalence.2.1 _ (by decide),
   c3_streaming_equivalence.2.2 _ 0 (by decide) (by decide)⟩

/-- Claim C4: for every stored snapshot, when the elapsed time since the
snapshot's observation instant exceeds the freshness TTL the handler answers
success with an empty body even though a snapshot exists, and when the
elapsed time is within the TTL it answers success with the rendered
exposition text of the stored snapshot. -/
theorem c4_ttl_gating :
    ∀ (f : SensorFrame) (t now : Nat),
      (METRICS_TTL < now - t → handler now ⟨some f, t⟩ = Except.ok "") ∧
      (now - t ≤ METRICS_TTL → handler now ⟨some f, t⟩ = Except.ok (renderFrame f)) := by
  intro f t now
  constructor
  · intro h
    simp [handler, h]
  · intro h
    have h' : ¬ METRICS_TTL < now - t := by omega
    simp [handler, h', Metrics.encode]

/-- Claim C4, witness: the gating theorem applied at a stale instant and at a
fresh instant. -/
theorem c4_witness :
    handler 70000 ⟨some exampleFrame, 0⟩ = Except.ok "" ∧
    handler 100 ⟨some exampleFrame, 50⟩ = Except.ok (renderFrame exampleFrame) :=
  ⟨(c4_ttl_gating exampleFrame 0 70000).1 (by decide),
   (c4_ttl_gating exampleFrame 50 100).2 (by decide)⟩

/-- Claim C5: a render performed on the store in its initial state (no frame
ever stored) answers the empty no-data result at every instant, and the empty
result is never a rendered exposition text (rendered texts are nonempty). -/
theorem c5_no_data_before_update :
    (∀ now t : Nat, handler now (Metrics.new t) = Except.ok "") ∧
    (∀ f : SensorFrame, renderFrame f ≠ "") := by
  constructor
  · intro now t
    unfold handler
    split
    · rfl
    · rfl
  · intro f h
    have hlen := congrArg String.length h
    simp only [renderFrame, String.length_append] at hlen
    have h15 : ("pm1_0_standard " : String).length = 15 := rfl
    have h0 : ("" : String).length = 0 := rfl
    rw [h15, h0] at hlen
    omega

/-- Claim C5, witness: the theorem applied at a concrete instant and a
concrete frame. -/
theorem c5_witness :
    handler 3 (Metrics.new 1) = Except.ok "" ∧ renderFrame exampleFrame ≠ "" :=
  ⟨c5_no_data_before_update.1 3 1, c5_no_data_before_update.2 exampleFrame⟩

/-- Claim C7: bind failure is not fatal in the code — the spawned server task
ends (the bind panics inside the task), but ending of the server task is not
one of the events `main`'s `select!` waits on, so the process keeps acquiring
sensor data without serving; the claim (and spec §7) require this situation
to be fatal at startup. -/
theorem c7_bind_failure_not_fatal :
    serveTaskStatus BindOutcome.bindFailed = TaskStatus.ended ∧
    mainStopsOn Wakeup.serveTaskEnded = false ∧
    acquisitionAfter Wakeup.serveTaskEnded = Acquisition.acquiring := by
  decide

/-- Claim C8: a codec error item in the stream of decode results (checksum
mismatch or unsupported frame length) leaves the metrics store exactly as if
the item had not occurred — the loop keeps processing the remaining items of
the same open connection — and consequently the `/metrics` handler's answer
is unaffected by such errors. -/
theorem c8_codec_errors_ignored :
    ∀ (m : Metrics) (pre post : List (Nat × Except CodecError SensorFrame)) (t : Nat)
      (e : CodecError) (now : Nat),
      readLoop m (pre ++ (t, Except.error e) :: post) = readLoop m (pre ++ post) ∧
      handler now (readLoop m (pre ++ (t, Except.error e) :: post)) =
        handler now (readLoop m (pre ++ post)) := by
  intro m pre post t e now
  have h : readLoop m (pre ++ (t, Except.error e) :: post) = readLoop m (pre ++ post) := by
    unfold readLoop
    rw [List.foldl_append, List.foldl_append, List.foldl_cons]
    rfl
  exact ⟨h, by rw [h]⟩

/-- Claim C8, witness: a checksum-mismatch item between two good frames is
invisible to the store. -/
theorem c8_witness :
    readLoop (Metrics.new 0) ([(1, Except.ok exampleFrame)] ++
        (2, Except.error CodecError.checksumMismatch) :: [(3, Except.ok exampleFrame)]) =
      readLoop (Metrics.new 0) ([(1, Except.ok exampleFrame)] ++ [(3, Except.ok exampleFrame)]) :=
  (c8_codec_errors_ignored (Metrics.new 0) [(1, Except.ok exampleFrame)]
    [(3, Except.ok exampleFrame)] 2 CodecError.checksumMismatch 0).1

theorem runOps_sound (ops : List Op) : ∀ (m : Metrics) (o : Except Nat String),
    o ∈ runOps m ops →
    o = Except.ok "" ∨ ∃ f, (m.frame = some f ∨ ∃ t, Op.update f t ∈ ops) ∧
      o = Except.ok (renderFrame f) := by
  induction ops with
  | nil =>
    intro m o h
    simp [runOps] at h
  | cons op rest ih =>
    intro m o h
    cases op with
    | update f t =>
      rw [show runOps m (Op.update f t :: rest) = runOps (m.update f t) rest from rfl] at h
      rcases ih (m.update f t) o h with h1 | ⟨g, hg, ho⟩
      · exact Or.inl h1
      · refine Or.inr ⟨g, ?_, ho⟩
        rcases hg with hframe | ⟨t', ht'⟩
        · simp [Metrics.update] at hframe
          subst hframe
          exact Or.inr ⟨t, List.mem_cons_self _ _⟩
        · exact Or.inr ⟨t', List.mem_cons_of_mem _ ht'⟩
    | render t =>
      rw [show runOps m (Op.render t :: rest) = handler t m :: runOps m rest from rfl] at h
      rcases List.mem_cons.mp h with h1 | h2
      · subst h1
        unfold handler
        split
        · exact Or.inl rfl
        · cases hm : m.frame with
          | none =>
            left
            simp [Metrics.encode, hm]
          | some f =>
            exact Or.inr ⟨f, Or.inl rfl, by simp [Metrics.encode, hm]⟩
      · rcases ih m o h2 with h1 | ⟨g, hg, ho⟩
        · exact Or.inl h1
        · refine Or.inr ⟨g, ?_, ho⟩
          rcases hg with hframe | ⟨t', ht'⟩
          · exact Or.inl hframe
          · exact Or.inr ⟨t', List.mem_cons_of_mem _ ht'⟩

/-- Claim C9: over every linearized history of store operations (update from
the acquisition loop, render from `/metrics`) starting from the initial empty
store, every render response is either the empty no-data body or the
rendering of exactly one frame that some update of the history stored — no
response ever mixes fields of two different frames. -/
theorem c9_render_single_frame :
    ∀ (t0 : Nat) (ops : List Op) (o : Except Nat String),
      o ∈ runOps (Metrics.new t0) ops →
      o = Except.ok "" ∨ ∃ f, (∃ t, Op.update f t ∈ ops) ∧ o = Except.ok (renderFrame f) := by
  intro t0 ops o h
  rcases runOps_sound ops (Metrics.new t0) o h with h1 | ⟨f, hf, ho⟩
  · exact Or.inl h1
  · rcases hf with hframe | hmem
    · simp [Metrics.new] at hframe
    · exact Or.inr ⟨f, hmem, ho⟩

/-- Claim C9, witness: a concrete history of one update followed by one
render. -/
theorem c9_witness :
    (Except.ok (renderFrame exampleFrame) : Except Nat String) = Except.ok "" ∨
    ∃ f, (∃ t, Op.update f t ∈ [Op.update exampleFrame 5, Op.render 6]) ∧
      (Except.ok (renderFrame exampleFrame) : Except Nat String) = Except.ok (renderFrame f) :=
  c9_render_single_frame 0 [Op.update exampleFrame 5, Op.render 6]
    (Except.ok (renderFrame exampleFrame)) (List.mem_cons_self _ _)

/-- Claim C10: when the positional serial-device-path argument is not valid
UTF-8 the startup conversion `to_str().unwrap()` panics, and for every
valid-UTF-8 path the conversion succeeds and startup proceeds with that
path. -/
theorem c10_utf8_startup :
    ∀ p : List Nat,
      ((utf8Decode p).isNone → startupDeviceArg p = StartupResult.panicked) ∧
      (∀ cs, utf8Decode p = some cs → startupDeviceArg p = StartupResult.proceeded p) := by
  intro p
  constructor
  · intro h
    unfold startupDeviceArg to_str
    cases hu : utf8Decode p with
    | none => rfl
    | some cs =>
      rw [hu] at h
      simp at h
  · intro cs h
    unfold startupDeviceArg to_str
    rw [h]

/-- Claim C10, witness: the lone byte `0xFF` is invalid UTF-8 and panics
startup; the ASCII path `/dev/ttyUSB0` is valid UTF-8 and proceeds. -/
theorem c10_witness :
    startupDeviceArg [0xFF] = StartupResult.panicked ∧
    startupDeviceArg devicePathBytes = StartupResult.proceeded devicePathBytes :=
  ⟨(c10_utf8_startup [0xFF]).1 (by decide),
   (c10_utf8_startup devicePathBytes).2 devicePathBytes (by decide)⟩

end Pms5003
